import Mathlib

/-!
Verification of the batch-partition / parallel-dispatch / merge engine and the
Lang line simplifier of this repository, against its natural-language spec.

The Lean definitions below are a shallow embedding of the Python source:

* `src/geofileops/util/_geoops_sql.py`
  - `_prepare_processing_params`   (lines 1547-1724)
  - `format_column_strings`        (lines 1734-1781)
  - `_single_layer_vector_operation` (lines 360-521)
  - `_two_layer_vector_operation`  (lines 1265-1526)
  - `gfo.remove` from `src/geofileops/geofile.py` (lines 474-492), whose
    unlink-on-missing behaviour matters for the operation control flow.
* `src/geofileops/util/vector_util/geometry.py`
  - `simplify_coords_lang`     (lines 243-278)
  - `simplify_coords_lang_idx` (lines 280-367)

Machine integers are modelled as `Nat`/`Int`.  Python float expressions that
occur in the source (the density ratio test against the literal 1.1, the
`round(...)` and `int(...)` calls on exact small quotients, and the
perpendicular-distance test of the Lang simplifier) are modelled by the exact
rational value of the same expression; at the concrete inputs used in the
theorems both agree.  File-system effects are modelled by explicit state
fields; the worker pool is modelled by a per-batch outcome function plus an
arbitrary completion order, since the source drains `futures.as_completed`.
-/

set_option maxRecDepth 100000

/-! ### Python numeric helpers -/

/-- Python `int(a / b)` on an exact quotient: truncation toward zero. -/
def pyTruncDiv (a b : Int) : Int := Int.tdiv a b

/-- Python `round(a / b)` on an exact quotient with `0 < b`:
round half to even (the Python 3 rounding mode). -/
def pyRound (a b : Int) : Int :=
  if b ≤ 0 then 0
  else
    let f := Int.fdiv a b
    let r := a - f * b
    if 2 * r < b then f
    else if b < 2 * r then f + 1
    else if f % 2 = 0 then f else f + 1

/-! ### Batch filters (`_prepare_processing_params`, lines 1637-1724) -/

/-- The row filter given to one batch.  The source stores it as SQL text
(`batches[id]["batch_filter"]`); the three shapes that the code can produce
are the empty filter (single batch, line 1652), the two-sided range filter
(line 1713) and the lower-bounded filter (line 1716). -/
inductive BatchFilter where
  | noFilter : BatchFilter
  | bounded (start_rowid end_rowid : Int) : BatchFilter
  | lower (start_rowid : Int) : BatchFilter
deriving DecidableEq, Repr

/-- The SQL text of a batch filter, exactly as built on lines 1652, 1713 and
1716; `layer_alias_d` is the `{input1_layer_alias}.` string of line 1700-1702
(empty when no alias was given). -/
def BatchFilter.toSql (layer_alias_d : String) : BatchFilter → String
  | .noFilter => ""
  | .bounded s e =>
      "AND (" ++ layer_alias_d ++ "rowid >= " ++ toString s ++ " AND "
        ++ layer_alias_d ++ "rowid <= " ++ toString e ++ ") "
  | .lower s => "AND " ++ layer_alias_d ++ "rowid >= " ++ toString s ++ " "

/-- Whether a row with identifier `r` satisfies a batch filter (the meaning of
the SQL text produced by `BatchFilter.toSql`). -/
def BatchFilter.rowMatches (r : Int) : BatchFilter → Bool
  | .noFilter => true
  | .bounded s e => decide (s ≤ r) && decide (r ≤ e)
  | .lower s => decide (s ≤ r)

/-- One row of the `batch_info_df` dataframe: batch id plus the start/end
row identifiers (lines 1677-1681 for the dense strategy, the NTILE query of
lines 1686-1696 for the sparse one).  The `nb_rows` column is also computed by
the source but never read afterwards, so it is not modelled. -/
structure BatchInfo where
  id : Int
  start_rowid : Int
  end_rowid : Int
deriving DecidableEq, Repr

/-- Lines 1711-1717: the filter built for one `batch_info` row.  Dense ids are
`0 .. nb_batches-1` (all strictly below `nb_batches`), NTILE ids are
`1 .. nb_batches`, so only the last sparse batch ever receives the unbounded
`rowid >= start` filter. -/
def BatchInfo.toFilter (nb_batches : Int) (b : BatchInfo) : BatchFilter :=
  if b.id < nb_batches then .bounded b.start_rowid b.end_rowid
  else .lower b.start_rowid

/-- Dense strategy (lines 1664-1681): equal-width ranges starting at offset 0,
`offset_per_batch = round((max_rowid-min_rowid)/nb_batches)`, and the last
batch ends at `max_rowid` instead of `offset+offset_per_batch-1`.  The running
`offset` after `batch_id` additions equals `batch_id * offset_per_batch`. -/
def dense_batch_infos (nb_batches : Nat) (min_rowid max_rowid : Int) : List BatchInfo :=
  let offset_per_batch := pyRound (max_rowid - min_rowid) (nb_batches : Int)
  (List.range nb_batches).map fun (batch_id : Nat) =>
    { id := (batch_id : Int)
      start_rowid := (batch_id : Int) * offset_per_batch
      end_rowid :=
        if batch_id < nb_batches - 1 then
          (batch_id : Int) * offset_per_batch + offset_per_batch - 1
        else max_rowid }

/-- Sizes of the `n` groups `NTILE(n) OVER (ORDER BY rowid)` assigns to a
column of `count` ordered rows: the first `count % n` groups get
`count / n + 1` rows, the rest get `count / n` rows. -/
def ntile_sizes (count n : Nat) : List Nat :=
  (List.range n).map fun b => count / n + (if b < count % n then 1 else 0)

/-- Split a list into consecutive chunks of the given sizes. -/
def split_by_sizes : List Int → List Nat → List (List Int)
  | _, [] => []
  | xs, k :: ks => xs.take k :: split_by_sizes (xs.drop k) ks

/-- The groups produced by `NTILE(n) OVER (ORDER BY rowid)` on the (ordered)
row-identifier list. -/
def ntile_buckets (n : Nat) (rowids : List Int) : List (List Int) :=
  split_by_sizes rowids (ntile_sizes rowids.length n)

/-- Sparse strategy (lines 1682-1697): the SQL query groups rows by their
NTILE batch id (`1 .. n`) and reports `MIN(rowid)`/`MAX(rowid)` per group;
with `n` not larger than the row count every group is non-empty, so the query
returns one row per batch id in ascending order. -/
def sparse_batch_infos (n : Nat) (rowids : List Int) : List BatchInfo :=
  (List.range n).map fun b =>
    let bucket := (ntile_buckets n rowids).getD b []
    { id := (b : Int) + 1
      start_rowid := (bucket.min?).getD 0
      end_rowid := (bucket.max?).getD 0 }

/-! ### `_prepare_processing_params` (lines 1547-1724) -/

/-- Lines 1567-1570: `-1` means auto, `min(cpu_count, max(featurecount/100, 1))`. -/
def resolve_nb_parallel (cpu_count featurecount : Nat) (nb_parallel : Int) : Int :=
  if nb_parallel = -1 then
    min (cpu_count : Int) (max ((featurecount / 100 : Nat) : Int) 1)
  else nb_parallel

/-- Lines 1575-1586 and the clamp on lines 1643-1644.  Note that line 1578
computes `max_rows_parallel = batchsize * nb_parallel` from the raw
`nb_parallel` PARAMETER, not from the resolved `returnvalue.nb_parallel`,
which is negative when the caller passed `nb_parallel = -1`. -/
def compute_nb_batches (featurecount : Nat) (resolved_parallel nb_parallel batchsize : Int) : Int :=
  let nb :=
    if 1 < resolved_parallel then
      let max_rows_parallel := if 0 < batchsize then batchsize * nb_parallel else 200000
      if max_rows_parallel < (featurecount : Int) then
        pyTruncDiv ((featurecount : Int) * resolved_parallel) max_rows_parallel
      else resolved_parallel * 2
    else 1
  if ((featurecount / 10 : Nat) : Int) < nb then max ((featurecount / 10 : Nat) : Int) 1
  else nb

/-- Lines 1646-1717: build the batch dictionary.  With one batch no filter is
used; otherwise `MIN(rowid)`/`MAX(rowid)` are read and the density test
`(max_rowid-min_rowid)/featurecount < 1.1` (modelled exactly on rationals)
chooses between the dense and the sparse strategy. -/
def make_batches (nb_batches : Int) (rowids : List Int) : List BatchFilter :=
  if nb_batches = 1 then [BatchFilter.noFilter]
  else
    let min_rowid := (rowids.min?).getD 0
    let max_rowid := (rowids.max?).getD 0
    let infos :=
      if (max_rowid - min_rowid) * 10 < 11 * (rowids.length : Int) then
        dense_batch_infos nb_batches.toNat min_rowid max_rowid
      else sparse_batch_infos nb_batches.toNat rowids
    infos.map (BatchInfo.toFilter nb_batches)

/-- The result of `_prepare_processing_params` that the callers consume: the
final degree of parallelism and the batch filters, in batch-id order.  Input
path normalisation (lines 1588-1635) only renames files and database aliases
and is not needed by any claim, so it is not part of the state. -/
structure ProcessingParams where
  nb_parallel : Int
  batches : List BatchFilter
deriving DecidableEq, Repr

/-- `_prepare_processing_params` (lines 1547-1724).  The layer is represented
by its list of existing row identifiers `rowids` (ascending), so
`featurecount = rowids.length`.  Returns `none` when the layer is empty
(lines 1562-1564); the final clamp `nb_parallel = len(batches)` is on lines
1720-1721. -/
def prepare_processing_params (cpu_count : Nat) (rowids : List Int)
    (nb_parallel batchsize : Int) : Option ProcessingParams :=
  if rowids.length = 0 then none
  else
    let p := resolve_nb_parallel cpu_count rowids.length nb_parallel
    let nb := compute_nb_batches rowids.length p nb_parallel batchsize
    let batches := make_batches nb rowids
    some { nb_parallel := if (batches.length : Int) < p then (batches.length : Int) else p
           batches := batches }

example :
    prepare_processing_params 4 [1, 2, 3] 1 (-1) = some ⟨1, [BatchFilter.noFilter]⟩ := by
  decide

example :
    prepare_processing_params 2 ((List.range 40).map fun i => (i : Int) + 1) 2 (-1) =
      some ⟨2, [.bounded 0 9, .bounded 10 19, .bounded 20 29, .bounded 30 40]⟩ := by
  decide

/-! ### Lang line simplifier (`vector_util/geometry.py`, lines 243-367) -/

/-- A coordinate sequence argument, which the source accepts either as a numpy
`ndarray` or as a plain list (the flag only governs conversions and the output
type).  The source stores coordinates as numpy floats; the spec inputs and the
test inputs are integral, and at integral coordinates every float expression
the algorithm evaluates is exact, so coordinates are modelled as integers. -/
inductive CoordsInput where
  | arr (coords : List (Int × Int)) : CoordsInput
  | lst (coords : List (Int × Int)) : CoordsInput
deriving DecidableEq, Repr

/-- The underlying coordinate list. -/
def CoordsInput.toList : CoordsInput → List (Int × Int)
  | .arr cs => cs
  | .lst cs => cs

/-- Whether the point `p` FAILS the tolerance test of the inner loop (lines
333-341) against the window segment `(a, b)`.  The source computes
`distance = abs((x2-x1)*(y1-y0)-(x1-x0)*(y2-y1)) / sqrt((x2-x1)^2+(y2-y1)^2)`
in numpy floats and treats the point as failing when the distance is NaN
(zero-length segment, 0/0) or exceeds `tolerance`; a nonzero numerator over a
zero denominator gives +inf, which also exceeds any finite tolerance.  On
exact rationals this is: the segment is degenerate, or the tolerance is
negative (a nonnegative distance always exceeds it), or
`numerator^2 > tolerance^2 * denomSq` (an exact comparison, avoiding the
square root). -/
def point_fails (tolerance : Int) (p a b : Int × Int) : Bool :=
  let num := (b.1 - a.1) * (a.2 - p.2) - (a.1 - p.1) * (b.2 - a.2)
  let denomSq := (b.1 - a.1) * (b.1 - a.1) + (b.2 - a.2) * (b.2 - a.2)
  decide (denomSq = 0) || decide (tolerance < 0)
    || decide (tolerance * tolerance * denomSq < num * num)

/-- State of the `while ready is False` loop of lines 322-358: the boolean
mask of kept indices and the current window. -/
structure LangState where
  mask : List Bool
  window_start : Nat
  window_end : Nat
deriving DecidableEq, Repr

/-- One execution of the loop of lines 329-358, with explicit fuel standing in
for the number of iterations the interpreter still allows; `none` means the
loop was still running when the fuel ran out.  The inner `for` over
`range(window_start+1, window_end)` either finds a failing point (shrink the
window, line 346) or marks `window_end` as kept and advances the window
(lines 349-358). -/
def lang_loop (line coords : List (Int × Int)) (tolerance : Int) (window_size : Nat) :
    Nat → LangState → Option (List Bool)
  | 0, _ => none
  | fuel + 1, st =>
      let nb_points := line.length
      let a := line.getD st.window_start (0, 0)
      let b := line.getD st.window_end (0, 0)
      let any_fail :=
        (List.range' (st.window_start + 1) (st.window_end - (st.window_start + 1))).any
          fun i => point_fails tolerance (line.getD i (0, 0)) a b
      if any_fail then
        lang_loop line coords tolerance window_size fuel
          { st with window_end := st.window_end - 1 }
      else
        let mask := st.mask.set st.window_end true
        let window_start := st.window_end
        if window_start = nb_points - 1 then some mask
        else
          let window_end := window_start + window_size
          let window_end := if nb_points ≤ window_end then nb_points - 1 else window_end
          lang_loop line coords tolerance window_size fuel
            { mask := mask, window_start := window_start, window_end := window_end }

/-- Indices at which the mask is true (`mask.nonzero()[0]`, line 361). -/
def mask_true_indices (mask : List Bool) : List Nat :=
  (List.range mask.length).filter fun i => mask.getD i false

/-- `simplify_coords_lang_idx` (lines 280-367).  `lookahead = -1` means the
whole remaining sequence (line 316-317).  An empty input raises an IndexError
at `mask[0] = True` and a negative lookahead other than `-1` makes the window
indices negative (Python indexing from the end, eventually an IndexError);
both are modelled as `none`.  The fuel bounds the while-loop iterations. -/
def simplify_coords_lang_idx (coords : CoordsInput) (tolerance : Int) (lookahead : Int)
    (fuel : Nat) : Option (List Nat) :=
  let line := coords.toList
  let nb_points := line.length
  let window_size : Int :=
    if lookahead = -1 then (nb_points : Int) - 1
    else min lookahead ((nb_points : Int) - 1)
  if nb_points = 0 then none
  else if window_size < 0 then none
  else
    let mask := (List.replicate nb_points false).set 0 true
    match lang_loop line line tolerance window_size.toNat fuel
        { mask := mask, window_start := 0, window_end := window_size.toNat } with
    | none => none
    | some mask => some (mask_true_indices mask)

/-- `simplify_coords_lang` (lines 243-278), modelled with explicit fuel for
the recursion depth Python allows.  Line 268 of the source calls
`simplify_coords_lang` ITSELF (not `simplify_coords_lang_idx`) with the input
converted to an ndarray, so the recursion never reaches a base case; were the
recursive call ever to return, `coords_arr[coords_to_keep_idx]` would index
the array with an array of coordinate pairs (floats), a numpy IndexError,
modelled as `none`. -/
def simplify_coords_lang (fuel : Nat) (coords : CoordsInput) (tolerance : Int)
    (lookahead : Int) : Option (List (Int × Int)) :=
  match fuel with
  | 0 => none
  | fuel + 1 =>
      let coords_arr := CoordsInput.arr coords.toList
      match simplify_coords_lang fuel coords_arr tolerance lookahead with
      | none => none
      | some _ => none

example :
    simplify_coords_lang_idx (.lst [(0, 0), (10, 10), (20, 20)]) 1 (-1) 10 =
      some [0, 2] := by decide

/-! ### Column projector: `format_column_strings` (lines 1734-1781) -/

/-- Python `str.upper()` (the column names involved are ASCII). -/
def strUpper (s : String) : String := ⟨s.data.map Char.toUpper⟩

/-- Python `sep.join(xs)` (kernel-computable join). -/
def joinSep (sep : String) : List String → String
  | [] => ""
  | [x] => x
  | x :: xs => x ++ sep ++ joinSep sep xs

/-- Line 1744: the columns requested but (case-insensitively) not available. -/
def missing_column_names (columns_specified columns_available : List String) : List String :=
  columns_specified.filter fun c =>
    decide (strUpper c ∉ columns_available.map strUpper)

/-- Line 1750: the matched columns, drawn FROM `columns_available` (so in the
casing declared by the source layer, and in layer order). -/
def matched_column_names (columns_specified columns_available : List String) : List String :=
  columns_available.filter fun c =>
    decide (strUpper c ∈ columns_specified.map strUpper)

/-- The five text fragments returned by `format_column_strings` (the
`FormattedColumnStrings` dataclass of lines 1726-1732); fields are named after
the local variables of lines 1755-1759 (the dataclass field names end in the
same words minus `_str`). -/
structure FormattedColumnStrings where
  columns_quoted_str : String
  columns_prefix_str : String
  columns_prefix_alias_str : String
  columns_prefix_alias_null_str : String
  columns_from_subselect_str : String
deriving DecidableEq, Repr

/-- Lines 1754-1781: format the five fragments from the resolved column list;
`column_pfx` is the `columnname_prefix` parameter of the source. -/
def render_column_strings (columns : List String) (table_alias column_pfx : String) :
    FormattedColumnStrings :=
  if columns.length = 0 then
    { columns_quoted_str := "", columns_prefix_str := "", columns_prefix_alias_str := ""
      columns_prefix_alias_null_str := "", columns_from_subselect_str := "" }
  else
    let table_alias_d := if table_alias ≠ "" then table_alias ++ "." else ""
    { columns_quoted_str :=
        "," ++ joinSep ", " (columns.map fun c => "\"" ++ c ++ "\"")
      columns_prefix_str :=
        "," ++ joinSep ", " (columns.map fun c => table_alias_d ++ "\"" ++ c ++ "\"")
      columns_prefix_alias_str :=
        "," ++ joinSep ", " (columns.map fun c =>
          table_alias_d ++ "\"" ++ c ++ "\" \"" ++ column_pfx ++ c ++ "\"")
      columns_prefix_alias_null_str :=
        "," ++ joinSep ", " (columns.map fun c => "NULL \"" ++ column_pfx ++ c ++ "\"")
      columns_from_subselect_str :=
        "," ++ joinSep ", " (columns.map fun c => "sub.\"" ++ column_pfx ++ c ++ "\"") }

/-- `format_column_strings` (lines 1734-1781).  With a requested subset, the
case-insensitive membership check of lines 1742-1746 raises an Exception
naming the missing columns (modelled as `Except.error`); otherwise the
matched columns (line 1750) or all available columns (line 1752) are
formatted. -/
def format_column_strings (columns_specified : Option (List String))
    (columns_available : List String) (table_alias column_pfx : String) :
    Except (List String) FormattedColumnStrings :=
  match columns_specified with
  | some spec =>
      let missing := missing_column_names spec columns_available
      if missing.isEmpty then
        .ok (render_column_strings (matched_column_names spec columns_available)
          table_alias column_pfx)
      else .error missing
  | none => .ok (render_column_strings columns_available table_alias column_pfx)

instance {e a : Type} [DecidableEq e] [DecidableEq a] : DecidableEq (Except e a) := fun x y =>
  match x, y with
  | .ok u, .ok v => if h : u = v then isTrue (by rw [h]) else isFalse (by simp [h])
  | .error u, .error v => if h : u = v then isTrue (by rw [h]) else isFalse (by simp [h])
  | .ok _, .error _ => isFalse (by simp)
  | .error _, .ok _ => isFalse (by simp)

example :
    format_column_strings (some ["NAME", "area"]) ["id", "Name", "AREA", "geom"] "" "" =
      .ok (render_column_strings ["Name", "AREA"] "" "") := by decide

example :
    format_column_strings (some ["bogus"]) ["id", "Name", "AREA", "geom"] "" "" =
      .error ["bogus"] := by decide

/-! ### The file-to-file operations

`_single_layer_vector_operation` (lines 360-521) and
`_two_layer_vector_operation` (lines 1265-1526), modelled as functions from an
environment (file-system facts, planner inputs, per-batch worker outcomes and
the order in which `futures.as_completed` yields them) to the observable
outcome: the raised error if any, the caller-visible output state, whether the
temporary working directory was created/removed, and how many batches were
planned and executed. -/

/-- Outcome of one batch worker (`ogr_util.vector_translate_by_info` /
`sqlite_util.create_table_as_sql`): success, recording whether the partial
output file exists and is non-empty, or a raised exception. -/
inductive WorkerOutcome where
  | ok (produced_nonempty_output : Bool) : WorkerOutcome
  | err (msg : String) : WorkerOutcome
deriving Repr

/-- The errors the modelled control flow can raise. -/
inductive OpError where
  | inputMissing (which : Nat) : OpError
  | useOgrConstraint : OpError
  | layerError : OpError
  | fileNotFound (path : String) : OpError
  | missingColumnsError (missing : List String) : OpError
  | poolError : OpError
  | batchError (batch_id : Nat) (sql_stmt : String) : OpError
deriving DecidableEq, Repr

/-- An operation SQL template with named slots, as consumed by
`sql_template.format(...)`; only the `{batch_filter}` slot varies per batch,
the other substitutions are fixed per operation and are part of the literal
segments here. -/
inductive SqlTemplatePart where
  | lit (s : String) : SqlTemplatePart
  | batchFilterSlot : SqlTemplatePart
deriving DecidableEq, Repr

/-- `sql_template.format(batch_filter=...)`. -/
def formatSqlTemplate (tmpl : List SqlTemplatePart) (batch_filter : String) : String :=
  tmpl.foldr
    (fun p acc => (match p with | .lit s => s | .batchFilterSlot => batch_filter) ++ acc) ""

/-- The `for future in futures.as_completed(...)` loop: walk the completed
batches in completion order; the first worker exception aborts the loop
(`.error batch_id`), otherwise record whether any partial output was
non-empty (that is, whether the merged `tmp_output_path` came to exist). -/
def drain_completed (worker : Nat → WorkerOutcome) :
    List Nat → Bool → Except Nat Bool
  | [], any_nonempty => .ok any_nonempty
  | batch_id :: rest, any_nonempty =>
      match worker batch_id with
      | .err _ => .error batch_id
      | .ok nonempty => drain_completed worker rest (any_nonempty || nonempty)

/-- Observable outcome of one operation invocation.  `nb_sql_executed` counts
the per-batch statements handed to the worker pool. -/
structure OpResult where
  error : Option OpError
  output_exists : Bool
  output_modified : Bool
  tempdir_created : Bool
  tempdir_removed : Bool
  nb_batches_planned : Nat
  nb_sql_executed : Nat
deriving DecidableEq, Repr

/-- Environment of `_single_layer_vector_operation`. -/
structure SingleLayerEnv where
  input_exists : Bool
  layers_resolvable : Bool
  output_exists : Bool
  force : Bool
  layerinfo_ok : Bool
  cpu_count : Nat
  rowids : List Int
  nb_parallel : Int
  batchsize : Int
  columns : Option (List String)
  columns_available : List String
  sql_template : List SqlTemplatePart
  worker : Nat → WorkerOutcome
  completion_order : List Nat

/-- `_single_layer_vector_operation` (lines 360-521).  Order of the source:
input-existence check (383), layer-name resolution (387-390), the
output-exists/force check (392-398), `get_layerinfo` (401), tempdir creation
(404), then a `try` whose `finally` (518-520) always removes the tempdir:
planner (408-418), column formatting (421-423), worker pool and drain
(429-507), merge finalisation (511-516). -/
def single_layer_vector_operation (env : SingleLayerEnv) : OpResult :=
  if !env.input_exists then
    { error := some (.inputMissing 1), output_exists := env.output_exists
      output_modified := false, tempdir_created := false, tempdir_removed := false
      nb_batches_planned := 0, nb_sql_executed := 0 }
  else if !env.layers_resolvable then
    { error := some .layerError, output_exists := env.output_exists
      output_modified := false, tempdir_created := false, tempdir_removed := false
      nb_batches_planned := 0, nb_sql_executed := 0 }
  else if env.output_exists && !env.force then
    -- lines 393-396: log and return, leaving the output untouched
    { error := none, output_exists := true, output_modified := false
      tempdir_created := false, tempdir_removed := false
      nb_batches_planned := 0, nb_sql_executed := 0 }
  else
    -- line 398: with force, a pre-existing output is removed now
    let output_removed := env.output_exists
    if !env.layerinfo_ok then
      { error := some .layerError, output_exists := false
        output_modified := output_removed, tempdir_created := false
        tempdir_removed := false, nb_batches_planned := 0, nb_sql_executed := 0 }
    else
      match prepare_processing_params env.cpu_count env.rowids env.nb_parallel
          env.batchsize with
      | none =>
          -- lines 416-418: return; the finally still removes the tempdir
          { error := none, output_exists := false, output_modified := output_removed
            tempdir_created := true, tempdir_removed := true
            nb_batches_planned := 0, nb_sql_executed := 0 }
      | some pp =>
          match format_column_strings env.columns env.columns_available "" "" with
          | .error missing =>
              { error := some (.missingColumnsError missing), output_exists := false
                output_modified := output_removed, tempdir_created := true
                tempdir_removed := true, nb_batches_planned := 0, nb_sql_executed := 0 }
          | .ok _ =>
              if pp.nb_parallel ≤ 0 then
                -- ProcessPoolExecutor(max_workers=0) raises ValueError
                { error := some .poolError, output_exists := false
                  output_modified := output_removed, tempdir_created := true
                  tempdir_removed := true, nb_batches_planned := pp.batches.length
                  nb_sql_executed := 0 }
              else
                -- lines 435-477: all batches are submitted with their statement
                -- (input1_layer_alias is "layer", line 411)
                let stmts := fun i =>
                  formatSqlTemplate env.sql_template
                    ((pp.batches.getD i .noFilter).toSql "layer.")
                match drain_completed env.worker env.completion_order false with
                | .error i =>
                    -- lines 482-487: wrap and re-raise with the batch dict
                    -- (which holds its statement); finally removes the tempdir
                    { error := some (.batchError i (stmts i)), output_exists := false
                      output_modified := output_removed, tempdir_created := true
                      tempdir_removed := true, nb_batches_planned := pp.batches.length
                      nb_sql_executed := pp.batches.length }
                | .ok any_nonempty =>
                    if any_nonempty then
                      -- lines 511-514: index, then move to the output path
                      { error := none, output_exists := true, output_modified := true
                        tempdir_created := true, tempdir_removed := true
                        nb_batches_planned := pp.batches.length
                        nb_sql_executed := pp.batches.length }
                    else
                      -- line 516: empty result, no output artifact
                      { error := none, output_exists := false
                        output_modified := output_removed, tempdir_created := true
                        tempdir_removed := true, nb_batches_planned := pp.batches.length
                        nb_sql_executed := pp.batches.length }

/-- Environment of `_two_layer_vector_operation`.  `output_is_shp` records
whether the output path has the `.shp` suffix: `geofile.remove` (geofile.py
lines 474-492) checks existence per component for shapefiles but calls
`Path.unlink()` unconditionally for every other suffix, so removing a
non-existent non-shapefile path raises FileNotFoundError. -/
structure TwoLayerEnv where
  input1_exists : Bool
  input2_exists : Bool
  use_ogr : Bool
  same_path : Bool
  output_exists : Bool
  output_is_shp : Bool
  force : Bool
  layerinfo_ok : Bool
  cpu_count : Nat
  rowids : List Int
  nb_parallel : Int
  batchsize : Int
  input1_columns : Option (List String)
  input1_columns_available : List String
  input2_columns : Option (List String)
  input2_columns_available : List String
  sql_template : List SqlTemplatePart
  worker : Nat → WorkerOutcome
  completion_order : List Nat

/-- `_two_layer_vector_operation` (lines 1265-1526).  Order of the source:
input checks (1316-1321), output-exists/force check (1322-1327), layer
resolution (1334-1339), tempdir creation (1340), `get_layerinfo` validation
(1343-1344), `gfo.remove(tmp_output_path)` on the fresh tempdir (1349), then
a `try` (1351-1519) whose `except` (1520-1523) removes the output paths and
re-raises.  The cleanup `shutil.rmtree(tempdir)` (line 1526) sits AFTER the
try/except instead of in a `finally`, so it is skipped both by the early
`return` on an empty input (1364-1365) and by every re-raised exception. -/
def two_layer_vector_operation (env : TwoLayerEnv) : OpResult :=
  if !env.input1_exists then
    { error := some (.inputMissing 1), output_exists := env.output_exists
      output_modified := false, tempdir_created := false, tempdir_removed := false
      nb_batches_planned := 0, nb_sql_executed := 0 }
  else if !env.input2_exists then
    { error := some (.inputMissing 2), output_exists := env.output_exists
      output_modified := false, tempdir_created := false, tempdir_removed := false
      nb_batches_planned := 0, nb_sql_executed := 0 }
  else if env.use_ogr && !env.same_path then
    { error := some .useOgrConstraint, output_exists := env.output_exists
      output_modified := false, tempdir_created := false, tempdir_removed := false
      nb_batches_planned := 0, nb_sql_executed := 0 }
  else if env.output_exists && !env.force then
    -- lines 1323-1325: log and return, leaving the output untouched
    { error := none, output_exists := true, output_modified := false
      tempdir_created := false, tempdir_removed := false
      nb_batches_planned := 0, nb_sql_executed := 0 }
  else
    -- line 1327: with force, a pre-existing output is removed now
    let output_removed := env.output_exists
    if !env.layerinfo_ok then
      -- raised after tempdir creation but before the try: rmtree unreachable
      { error := some .layerError, output_exists := false
        output_modified := output_removed, tempdir_created := true
        tempdir_removed := false, nb_batches_planned := 0, nb_sql_executed := 0 }
    else if !env.output_is_shp then
      -- line 1349: gfo.remove on the fresh, hence missing, tmp_output_path
      { error := some (.fileNotFound "tmp_output_path"), output_exists := false
        output_modified := output_removed, tempdir_created := true
        tempdir_removed := false, nb_batches_planned := 0, nb_sql_executed := 0 }
    else
      match prepare_processing_params env.cpu_count env.rowids env.nb_parallel
          env.batchsize with
      | none =>
          -- lines 1364-1365: return from inside the try: rmtree is skipped
          { error := none, output_exists := false, output_modified := output_removed
            tempdir_created := true, tempdir_removed := false
            nb_batches_planned := 0, nb_sql_executed := 0 }
      | some pp =>
          match format_column_strings env.input1_columns env.input1_columns_available
              "layer1" "" with
          | .error missing =>
              { error := some (.missingColumnsError missing), output_exists := false
                output_modified := output_removed, tempdir_created := true
                tempdir_removed := false, nb_batches_planned := 0, nb_sql_executed := 0 }
          | .ok _ =>
          match format_column_strings env.input2_columns env.input2_columns_available
              "layer2" "" with
          | .error missing =>
              { error := some (.missingColumnsError missing), output_exists := false
                output_modified := output_removed, tempdir_created := true
                tempdir_removed := false, nb_batches_planned := 0, nb_sql_executed := 0 }
          | .ok _ =>
          if pp.nb_parallel ≤ 0 then
            { error := some .poolError, output_exists := false
              output_modified := output_removed, tempdir_created := true
              tempdir_removed := false, nb_batches_planned := pp.batches.length
              nb_sql_executed := 0 }
          else
            -- lines 1402-1464: all batches submitted (input1_layer_alias is
            -- "layer1", line 1357)
            let stmts := fun i =>
              formatSqlTemplate env.sql_template
                ((pp.batches.getD i .noFilter).toSql "layer1.")
            match drain_completed env.worker env.completion_order false with
            | .error i =>
                -- lines 1496-1500 wrap with the batch dict (which holds the
                -- statement); the except of 1520-1523 removes the output paths
                -- (no-ops on missing shapefiles) and re-raises: rmtree skipped
                { error := some (.batchError i (stmts i)), output_exists := false
                  output_modified := output_removed, tempdir_created := true
                  tempdir_removed := false, nb_batches_planned := pp.batches.length
                  nb_sql_executed := pp.batches.length }
            | .ok any_nonempty =>
                if any_nonempty then
                  -- lines 1510-1515: index and move, then line 1526 rmtree
                  { error := none, output_exists := true, output_modified := true
                    tempdir_created := true, tempdir_removed := true
                    nb_batches_planned := pp.batches.length
                    nb_sql_executed := pp.batches.length }
                else
                  -- line 1517: empty result; line 1526 rmtree still runs
                  { error := none, output_exists := false
                    output_modified := output_removed, tempdir_created := true
                    tempdir_removed := true, nb_batches_planned := pp.batches.length
                    nb_sql_executed := pp.batches.length }

/-! ### Shared concrete inputs -/

/-- A dense layer: row identifiers `1 .. n` (the usual fresh-GPKG layout). -/
def consecutive_rowids (n : Nat) : List Int :=
  (List.range n).map fun i => (i : Int) + 1

/-- Template standing for an instantiated single/two-layer operation select
with its `{batch_filter}` slot. -/
def demo_sql_template : List SqlTemplatePart :=
  [.lit "SELECT * FROM \"layer1\" WHERE 1=1 ", .batchFilterSlot]

/-! ### C1 -/

/-- C1: the claim states that for every layer and every valid combination of
requested parallelism (`-1` or `>= 1`) and batch-size hint (`-1` or `> 0`)
the produced batches partition the existing rows exactly once.  The code
violates it: line 1578 computes `max_rows_parallel = batchsize * nb_parallel`
from the RAW `nb_parallel` parameter, so for `nb_parallel = -1` with a
positive batch-size hint it is negative, the batch count becomes negative,
`range(nb_batches)` is empty, and the planner returns ZERO batches for a
200-row layer (every row is omitted; the final parallelism is clamped to 0).
This theorem evaluates the embedded planner at that failing input. -/
theorem c1_auto_parallel_with_batchsize_loses_all_rows :
    prepare_processing_params 2 (consecutive_rowids 200) (-1) 50 = some ⟨0, []⟩ ∧
    (consecutive_rowids 200).length = 200 ∧ (1 : Int) ∈ consecutive_rowids 200 := by
  decide

/-! ### C2 -/

/-- Two-layer environment with 4 batches whose third worker (batch id 2)
raises; shapefile output so that the `gfo.remove` calls of the exception
handler do not themselves raise. -/
def c2_env : TwoLayerEnv where
  input1_exists := true
  input2_exists := true
  use_ogr := false
  same_path := false
  output_exists := false
  output_is_shp := true
  force := false
  layerinfo_ok := true
  cpu_count := 2
  rowids := consecutive_rowids 40
  nb_parallel := 2
  batchsize := -1
  input1_columns := none
  input1_columns_available := ["fid", "name"]
  input2_columns := none
  input2_columns_available := ["fid", "name"]
  sql_template := demo_sql_template
  worker := fun i => if i = 2 then .err "SQL error" else .ok true
  completion_order := [0, 1, 2, 3]

/-- C2: of the claimed failure behaviour, the code does raise a single error
wrapped with the failing batch id and its statement text, and no caller-visible
output exists afterwards, but the temporary working directory is NOT removed:
`shutil.rmtree(tempdir)` (line 1526) is placed after the try/except instead of
in a `finally`, and the `except` of lines 1520-1523 re-raises before reaching
it.  This theorem evaluates the embedded operation at a 4-batch run whose
batch 2 worker raises. -/
theorem c2_failure_wraps_error_but_leaks_tempdir :
    two_layer_vector_operation c2_env =
      { error := some (.batchError 2
          "SELECT * FROM \"layer1\" WHERE 1=1 AND (layer1.rowid >= 20 AND layer1.rowid <= 29) ")
        output_exists := false, output_modified := false, tempdir_created := true
        tempdir_removed := false, nb_batches_planned := 4, nb_sql_executed := 4 } := by
  decide

/-! ### C3 -/

/-- Invocation with a pre-existing output, `force=False`, and a missing input
path. -/
def c3_env : SingleLayerEnv where
  input_exists := false
  layers_resolvable := true
  output_exists := true
  force := false
  layerinfo_ok := true
  cpu_count := 2
  rowids := consecutive_rowids 5
  nb_parallel := 1
  batchsize := -1
  columns := none
  columns_available := ["fid"]
  sql_template := demo_sql_template
  worker := fun _ => .ok true
  completion_order := [0]

/-- C3 counterexample: the input-existence check (line 383 and lines
1316-1319) runs BEFORE the output-exists/force check, so an invocation whose
output already exists with `force=False` but whose input path is missing
raises instead of being a no-op that returns. -/
theorem c3_counterexample_input_checked_first :
    c3_env.output_exists = true ∧ c3_env.force = false ∧
    (single_layer_vector_operation c3_env).error = some (.inputMissing 1) := by
  decide

/-! ### C5 -/

/-- Single-layer invocation on an empty layer. -/
def c5_single_env : SingleLayerEnv where
  input_exists := true
  layers_resolvable := true
  output_exists := false
  force := false
  layerinfo_ok := true
  cpu_count := 4
  rowids := []
  nb_parallel := -1
  batchsize := -1
  columns := none
  columns_available := ["fid"]
  sql_template := demo_sql_template
  worker := fun _ => .ok true
  completion_order := []

/-- Two-layer invocation on an empty layer, shapefile output. -/
def c5_two_env_shp : TwoLayerEnv where
  input1_exists := true
  input2_exists := true
  use_ogr := false
  same_path := false
  output_exists := false
  output_is_shp := true
  force := false
  layerinfo_ok := true
  cpu_count := 4
  rowids := []
  nb_parallel := -1
  batchsize := -1
  input1_columns := none
  input1_columns_available := ["fid"]
  input2_columns := none
  input2_columns_available := ["fid"]
  sql_template := demo_sql_template
  worker := fun _ => .ok true
  completion_order := []

/-- The same two-layer invocation with a non-shapefile (e.g. `.gpkg`)
output path. -/
def c5_two_env_gpkg : TwoLayerEnv :=
  { c5_two_env_shp with output_is_shp := false }

/-- C5: the planner does return `none` for an empty layer (lines 1562-1564)
and the single-layer operation then returns with no batch, no output and no
error (tempdir removed by its finally); the two-layer operation does the same
only when the output is a shapefile (and leaks its tempdir, lines 1364-1365
bypassing line 1526).  For any other output format the two-layer operation
raises FileNotFoundError BEFORE consulting the planner, because
`gfo.remove(tmp_output_path)` (line 1349) unlinks a path that cannot exist in
the freshly created tempdir (geofile.py lines 474-492 have no existence check
for non-shapefiles) - contradicting the claimed "no error". -/
theorem c5_empty_layer_short_circuit_and_startup_bug :
    prepare_processing_params 4 [] (-1) (-1) = none ∧
    single_layer_vector_operation c5_single_env =
      { error := none, output_exists := false, output_modified := false
        tempdir_created := true, tempdir_removed := true
        nb_batches_planned := 0, nb_sql_executed := 0 } ∧
    two_layer_vector_operation c5_two_env_shp =
      { error := none, output_exists := false, output_modified := false
        tempdir_created := true, tempdir_removed := false
        nb_batches_planned := 0, nb_sql_executed := 0 } ∧
    two_layer_vector_operation c5_two_env_gpkg =
      { error := some (.fileNotFound "tmp_output_path"), output_exists := false
        output_modified := false, tempdir_created := true, tempdir_removed := false
        nb_batches_planned := 0, nb_sql_executed := 0 } := by
  decide

/-! ### C4 counterexample -/

/-- Whether a filter is the two-sided `rowid >= s AND rowid <= e` form. -/
def BatchFilter.isBounded : BatchFilter → Bool
  | .bounded _ _ => true
  | _ => false

/-- Whether a filter is the unbounded-above `rowid >= s` form. -/
def BatchFilter.isLower : BatchFilter → Bool
  | .lower _ => true
  | _ => false

/-- The upper bound of a two-sided filter. -/
def BatchFilter.upperBound : BatchFilter → Option Int
  | .bounded _ e => some e
  | _ => none

/-- C4 counterexample: a dense 40-row layer planned into 4 batches.  All four
batches - including the LAST one - carry a two-sided `[start, end]` filter
(dense batch ids `0..nb_batches-1` never reach the `id < nb_batches` else
branch of lines 1712-1717); the last filter is `rowid >= 30 AND rowid <= 40`,
not an unbounded `rowid >= start`. -/
theorem c4_counterexample_dense_last_batch_is_bounded :
    ((prepare_processing_params 2 (consecutive_rowids 40) 2 (-1)).map
        ProcessingParams.batches).getD [] =
      [.bounded 0 9, .bounded 10 19, .bounded 20 29, .bounded 30 40] ∧
    ((((prepare_processing_params 2 (consecutive_rowids 40) 2 (-1)).map
        ProcessingParams.batches).getD []).getLastD .noFilter).isLower = false := by
  decide

/-! ### C7 -/

/-- C7: `simplify_coords_lang` never returns a value, for ANY fuel (recursion
budget), coordinate sequence, tolerance and lookahead: line 268 calls
`simplify_coords_lang` itself instead of `simplify_coords_lang_idx`, with the
same tolerance/lookahead and the input converted to an array, so the
recursion has no base case and the Python function dies with RecursionError
instead of returning the subsequence selected by `simplify_coords_lang_idx`. -/
theorem c7_simplify_coords_lang_never_returns (fuel : Nat) (coords : CoordsInput)
    (tolerance lookahead : Int) :
    simplify_coords_lang fuel coords tolerance lookahead = none := by
  induction fuel generalizing coords with
  | zero => rfl
  | succ n ih => simp [simplify_coords_lang, ih]

/-! ### C10 -/

/-- C10: on the 3-point line `[(0,0),(10,10),(20,20)]` with `tolerance=1` and
`lookahead=-1`, `simplify_coords_lang_idx` keeps exactly the indices 0 and 2:
the collinear midpoint is at perpendicular distance 0, so the whole-sequence
window passes the tolerance test at once and only the endpoints are marked. -/
theorem c10_three_point_line_keeps_endpoints :
    simplify_coords_lang_idx (.lst [(0, 0), (10, 10), (20, 20)]) 1 (-1) 10 =
      some [0, 2] := by
  decide

/-! ### C3 amended -/

/-- C3 amended: provided the input path(s) exist, the layer names resolve and
(two-layer) the `use_ogr` constraint holds - checks the source runs first -
an invocation whose caller-visible output already exists with `force=False`
is a no-op: no error, no batch planned, no SQL executed, no tempdir even
created, and the existing output left untouched. -/
theorem c3_amended_existing_output_is_noop (e1 : SingleLayerEnv) (e2 : TwoLayerEnv)
    (h1i : e1.input_exists = true) (h1l : e1.layers_resolvable = true)
    (h1o : e1.output_exists = true) (h1f : e1.force = false)
    (h2a : e2.input1_exists = true) (h2b : e2.input2_exists = true)
    (h2g : (e2.use_ogr && !e2.same_path) = false)
    (h2o : e2.output_exists = true) (h2f : e2.force = false) :
    single_layer_vector_operation e1 =
      { error := none, output_exists := true, output_modified := false
        tempdir_created := false, tempdir_removed := false
        nb_batches_planned := 0, nb_sql_executed := 0 } ∧
    two_layer_vector_operation e2 =
      { error := none, output_exists := true, output_modified := false
        tempdir_created := false, tempdir_removed := false
        nb_batches_planned := 0, nb_sql_executed := 0 } := by
  constructor
  · simp [single_layer_vector_operation, h1i, h1l, h1o, h1f]
  · simp [two_layer_vector_operation, h2a, h2b, h2g, h2o, h2f]

/-- A single-layer invocation whose output already exists, without force. -/
def c3_noop_single_env : SingleLayerEnv :=
  { c3_env with input_exists := true }

/-- A two-layer invocation whose output already exists, without force. -/
def c3_noop_two_env : TwoLayerEnv :=
  { c2_env with output_exists := true }

theorem c3_amended_witness :
    single_layer_vector_operation c3_noop_single_env =
      { error := none, output_exists := true, output_modified := false
        tempdir_created := false, tempdir_removed := false
        nb_batches_planned := 0, nb_sql_executed := 0 } ∧
    two_layer_vector_operation c3_noop_two_env =
      { error := none, output_exists := true, output_modified := false
        tempdir_created := false, tempdir_removed := false
        nb_batches_planned := 0, nb_sql_executed := 0 } :=
  c3_amended_existing_output_is_noop c3_noop_single_env c3_noop_two_env
    rfl rfl rfl rfl rfl rfl rfl rfl rfl

/-! ### C6 -/

/-- C6: for every non-empty layer, whenever the resolved parallelism is 1
(in particular when the caller passes `nb_parallel = 1`), the planner emits
exactly one batch carrying the empty filter string, whatever the feature
count: `nb_batches` is forced to 1 (lines 1585-1586, surviving the clamp of
lines 1643-1644) and the single batch gets `batch_filter = ""` (line 1652),
which renders to the empty string under any layer alias used by the callers. -/
theorem c6_resolved_parallelism_one_single_empty_filter (cpu_count : Nat)
    (rowids : List Int) (nb_parallel batchsize : Int) (hne : rowids ≠ [])
    (hres : resolve_nb_parallel cpu_count rowids.length nb_parallel = 1) :
    prepare_processing_params cpu_count rowids nb_parallel batchsize =
      some ⟨1, [BatchFilter.noFilter]⟩ ∧
    BatchFilter.noFilter.toSql "layer." = "" ∧
    BatchFilter.noFilter.toSql "layer1." = "" := by
  have hlen : rowids.length ≠ 0 := fun h => hne (List.length_eq_zero.mp h)
  have hnb : compute_nb_batches rowids.length 1 nb_parallel batchsize = 1 := by
    unfold compute_nb_batches
    simp only [lt_self_iff_false, if_false]
    split
    · next h =>
        have h0 : rowids.length / 10 = 0 := by
          by_contra hc
          have : (1 : Int) ≤ ((rowids.length / 10 : Nat) : Int) := by
            exact_mod_cast Nat.one_le_iff_ne_zero.mpr hc
          omega
        simp [h0]
    · rfl
  refine ⟨?_, rfl, rfl⟩
  unfold prepare_processing_params
  simp only [hlen, if_false, hres, hnb]
  simp [make_batches]

theorem c6_witness :
    prepare_processing_params 4 [1, 2, 3] 1 (-1) = some ⟨1, [BatchFilter.noFilter]⟩ ∧
    BatchFilter.noFilter.toSql "layer." = "" ∧
    BatchFilter.noFilter.toSql "layer1." = "" :=
  c6_resolved_parallelism_one_single_empty_filter 4 [1, 2, 3] 1 (-1) (by decide)
    (by decide)

/-! ### C4 amended -/

/-- C4 amended: when the planner emits more than one batch, the filter shapes
depend on the strategy.  Sparse/quantile path: every batch except the last
gets a two-sided `[start, end]` filter and the last (NTILE id = nb_batches)
gets the unbounded `rowid >= start` filter.  Dense path: EVERY batch,
including the last, gets a two-sided filter; no trailing rows are lost there
because the upper bound of the last dense batch is set to `max_rowid` itself
(line 1676). -/
theorem c4_amended_filter_shapes (n : Nat) (hn : 2 ≤ n) (min_rowid max_rowid : Int)
    (rowids : List Int) :
    ((dense_batch_infos n min_rowid max_rowid).map
        (BatchInfo.toFilter (n : Int))).all BatchFilter.isBounded = true ∧
    ((((dense_batch_infos n min_rowid max_rowid).map
        (BatchInfo.toFilter (n : Int))).getLastD .noFilter).upperBound = some max_rowid) ∧
    ((((sparse_batch_infos n rowids).map
        (BatchInfo.toFilter (n : Int))).dropLast).all BatchFilter.isBounded = true) ∧
    ((((sparse_batch_infos n rowids).map
        (BatchInfo.toFilter (n : Int))).getLastD .noFilter).isLower = true) := by
  have hsplit : List.range n = List.range (n - 1) ++ [n - 1] := by
    conv_lhs => rw [show n = (n - 1) + 1 by omega]
    exact List.range_succ (n - 1)
  refine ⟨?_, ?_, ?_, ?_⟩
  · rw [dense_batch_infos, List.map_map, List.all_eq_true]
    intro x hx
    obtain ⟨i, hi, rfl⟩ := List.mem_map.mp hx
    have hilt : (i : Int) < (n : Int) := by exact_mod_cast List.mem_range.mp hi
    simp [Function.comp, BatchInfo.toFilter, hilt, BatchFilter.isBounded]
  · rw [dense_batch_infos, List.map_map, hsplit, List.map_append, List.map_singleton,
      List.getLastD_concat]
    have hlt : ((n - 1 : Nat) : Int) < (n : Int) := by
      have : n - 1 < n := by omega
      exact_mod_cast this
    have hnotlt : ¬ (n - 1 < n - 1) := lt_irrefl _
    simp [Function.comp, BatchInfo.toFilter, hlt, hnotlt, BatchFilter.upperBound]
  · rw [sparse_batch_infos, List.map_map, hsplit, List.map_append, List.map_singleton,
      List.dropLast_concat, List.all_eq_true]
    intro x hx
    obtain ⟨i, hi, rfl⟩ := List.mem_map.mp hx
    have hilt : (i : Int) + 1 < (n : Int) := by
      have : i < n - 1 := List.mem_range.mp hi
      omega
    simp [Function.comp, BatchInfo.toFilter, hilt, BatchFilter.isBounded]
  · rw [sparse_batch_infos, List.map_map, hsplit, List.map_append, List.map_singleton,
      List.getLastD_concat]
    have hnotlt : ¬ (((n - 1 : Nat) : Int) + 1 < (n : Int)) := by
      have h1 : ((n - 1 : Nat) : Int) = (n : Int) - 1 := by
        have : 1 ≤ n := by omega
        push_cast [Nat.cast_sub this]
        ring
      omega
    simp [Function.comp, BatchInfo.toFilter, hnotlt, BatchFilter.isLower]

theorem c4_amended_witness :
    ((dense_batch_infos 2 0 5).map
        (BatchInfo.toFilter (2 : Int))).all BatchFilter.isBounded = true ∧
    ((((dense_batch_infos 2 0 5).map
        (BatchInfo.toFilter (2 : Int))).getLastD .noFilter).upperBound = some 5) ∧
    ((((sparse_batch_infos 2 [0, 1, 5, 9]).map
        (BatchInfo.toFilter (2 : Int))).dropLast).all BatchFilter.isBounded = true) ∧
    ((((sparse_batch_infos 2 [0, 1, 5, 9]).map
        (BatchInfo.toFilter (2 : Int))).getLastD .noFilter).isLower = true) :=
  c4_amended_filter_shapes 2 (by decide) 0 5 [0, 1, 5, 9]

/-! ### C8 and C9 -/

/-- Line 1744 in terms of membership: no column is missing exactly when every
requested column has a case-insensitive match among the available ones. -/
theorem missing_column_names_eq_nil_iff (spec avail : List String) :
    missing_column_names spec avail = [] ↔
      ∀ c ∈ spec, ∃ a ∈ avail, strUpper a = strUpper c := by
  simp [missing_column_names, List.filter_eq_nil_iff, List.mem_map]

/-- C8: with a requested column subset, `format_column_strings` succeeds
exactly when every requested column matches an available column
case-insensitively; otherwise it raises (lines 1742-1746) an error carrying
exactly the offending columns - an element is in the raised list precisely
when it was requested and has no case-insensitive match. -/
theorem c8_unknown_columns_hard_error (spec avail : List String)
    (table_alias column_pfx : String) :
    ((∃ fcs, format_column_strings (some spec) avail table_alias column_pfx = .ok fcs) ↔
      ∀ c ∈ spec, ∃ a ∈ avail, strUpper a = strUpper c) ∧
    (∀ e, format_column_strings (some spec) avail table_alias column_pfx = .error e →
      ∀ c, (c ∈ e ↔ c ∈ spec ∧ ¬ ∃ a ∈ avail, strUpper a = strUpper c)) := by
  constructor
  · rw [← missing_column_names_eq_nil_iff]
    unfold format_column_strings
    constructor
    · rintro ⟨fcs, hf⟩
      by_cases h : (missing_column_names spec avail).isEmpty = true
      · exact List.isEmpty_iff.mp h
      · simp [h] at hf
    · intro h
      have h' : (missing_column_names spec avail).isEmpty = true :=
        List.isEmpty_iff.mpr h
      exact ⟨render_column_strings (matched_column_names spec avail) table_alias
        column_pfx, by simp [format_column_strings, h']⟩
  · intro e he c
    unfold format_column_strings at he
    by_cases h : (missing_column_names spec avail).isEmpty = true
    · simp [h] at he
    · simp [h] at he
      subst he
      simp [missing_column_names, List.mem_filter, List.mem_map]

theorem c8_witness :
    ("bogus" ∈ (["bogus"] : List String)) ↔
      ("bogus" ∈ (["bogus"] : List String) ∧
        ¬ ∃ a ∈ (["id", "Name", "AREA", "geom"] : List String),
          strUpper a = strUpper "bogus") :=
  (c8_unknown_columns_hard_error ["bogus"] ["id", "Name", "AREA", "geom"] "" "").2
    ["bogus"] (by decide) "bogus"

/-- C9: the projector output never depends on the casing of the requested
columns - two requests equal up to case produce the same successful result -
and every successful result is rendered from `matched_column_names`, a
sublist of `columns_available` (line 1750 draws the kept names from the
available list), hence in the casing declared by the source layer. -/
theorem c9_output_uses_source_layer_casing (spec1 spec2 avail : List String)
    (table_alias column_pfx : String)
    (hup : spec1.map strUpper = spec2.map strUpper) :
    ∀ fcs, format_column_strings (some spec1) avail table_alias column_pfx = .ok fcs →
      format_column_strings (some spec2) avail table_alias column_pfx = .ok fcs ∧
      fcs = render_column_strings (matched_column_names spec1 avail)
        table_alias column_pfx ∧
      (matched_column_names spec1 avail).Sublist avail := by
  intro fcs hf
  unfold format_column_strings at hf
  by_cases h1 : (missing_column_names spec1 avail).isEmpty = true
  · simp [h1] at hf
    have hall : ∀ c ∈ spec1, ∃ a ∈ avail, strUpper a = strUpper c :=
      (missing_column_names_eq_nil_iff spec1 avail).mp (List.isEmpty_iff.mp h1)
    have htrans : ∀ c ∈ spec2, ∃ a ∈ avail, strUpper a = strUpper c := by
      intro c hc
      have hmem : strUpper c ∈ spec2.map strUpper := List.mem_map_of_mem _ hc
      rw [← hup] at hmem
      obtain ⟨c1, hc1, he⟩ := List.mem_map.mp hmem
      obtain ⟨a, ha, hae⟩ := hall c1 hc1
      exact ⟨a, ha, by rw [hae, he]⟩
    have h2 : (missing_column_names spec2 avail).isEmpty = true :=
      List.isEmpty_iff.mpr ((missing_column_names_eq_nil_iff spec2 avail).mpr htrans)
    have hmatched : matched_column_names spec2 avail = matched_column_names spec1 avail := by
      unfold matched_column_names
      rw [← hup]
    refine ⟨?_, hf.symm, List.filter_sublist avail⟩
    simp [format_column_strings, h2, hmatched, hf]
  · simp [h1] at hf

theorem c9_witness :
    format_column_strings (some ["Name", "AREA"]) ["id", "Name", "AREA", "geom"] "" "" =
      .ok (render_column_strings
        (matched_column_names ["NAME", "area"] ["id", "Name", "AREA", "geom"]) "" "") ∧
    (render_column_strings
          (matched_column_names ["NAME", "area"] ["id", "Name", "AREA", "geom"]) "" "") =
        render_column_strings
          (matched_column_names ["NAME", "area"] ["id", "Name", "AREA", "geom"]) "" "" ∧
    (matched_column_names ["NAME", "area"] ["id", "Name", "AREA", "geom"]).Sublist
      ["id", "Name", "AREA", "geom"] :=
  c9_output_uses_source_layer_casing ["NAME", "area"] ["Name", "AREA"]
    ["id", "Name", "AREA", "geom"] "" "" (by decide) _ (by decide)
